import Mathlib

/-!
Shallow embedding of the VMClarity runtime-scan orchestrator
(`runtime_scan/pkg/scanner`): the scan-summary roll-up, the job batch
controller's terminal-state computation, the result waiter, the job
reaper and delete policy, the job pipeline's error-path cleanup, and the
initial target-scan-status creation.  Go pointer fields that the code may
observe as nil are modelled as `Option`; Go `int` is modelled as `Int`
(the counters involved stay far from machine bounds).  Fallible calls to
the backend store and to the cloud provider are modelled as explicit
inputs (oracles) so that the orchestrator's control flow over their
outcomes is a pure function.
-/

/-- Per-severity vulnerability counts of a summary
(`models.VulnerabilityScanSummary`). -/
structure VulnerabilityScanSummary where
  totalCriticalVulnerabilities : Int
  totalHighVulnerabilities : Int
  totalMediumVulnerabilities : Int
  totalLowVulnerabilities : Int
  totalNegligibleVulnerabilities : Int
deriving Repr, DecidableEq

/-- Finding totals of a target scan result (`models.ScanFindingsSummary`). -/
structure ScanFindingsSummary where
  totalExploits : Int
  totalMalware : Int
  totalMisconfigurations : Int
  totalPackages : Int
  totalRootkits : Int
  totalSecrets : Int
  totalVulnerabilities : VulnerabilityScanSummary
deriving Repr, DecidableEq

/-- A scan's summary (`models.ScanSummary`): finding totals plus the two
job counters. -/
structure ScanSummary where
  jobsCompleted : Int
  jobsLeftToRun : Int
  totalExploits : Int
  totalMalware : Int
  totalMisconfigurations : Int
  totalPackages : Int
  totalRootkits : Int
  totalSecrets : Int
  totalVulnerabilities : VulnerabilityScanSummary
deriving Repr, DecidableEq

/-- Scan states (`models.ScanState`). -/
inductive ScanState where
  | pending
  | inProgress
  | failed
  | done
  | aborted
deriving Repr, DecidableEq

/-- Scan state reasons (`models.ScanStateReason`). -/
inductive ScanStateReason where
  | success
  | oneOrMoreTargetFailedToScan
  | aborted
  | timedOut
  | unexpected
deriving Repr, DecidableEq

/-- A scan record (`models.Scan`), restricted to the fields the
orchestrator reads or writes.  `state`, `stateReason`, `stateMessage`
and `endTime` are pointers in Go, hence `Option`; `GetState` succeeds
exactly when `state` is non-nil. -/
structure Scan where
  summary : ScanSummary
  state : Option ScanState
  stateReason : Option ScanStateReason
  stateMessage : Option String
  endTime : Option Nat
deriving Repr, DecidableEq

/-- The summary update of `createScanWithUpdatedSummary` (part_000 lines
182-196): increment `JobsCompleted`, decrement `JobsLeftToRun`, and add
each finding total of the completed result into the scan summary.  The
negligible line mirrors the source exactly: it reads the scan summary's
`TotalCriticalVulnerabilities` (line 195). -/
def updatedSummary (s : ScanSummary) (r : ScanFindingsSummary) : ScanSummary :=
  { jobsCompleted := s.jobsCompleted + 1
    jobsLeftToRun := s.jobsLeftToRun - 1
    totalExploits := s.totalExploits + r.totalExploits
    totalMalware := s.totalMalware + r.totalMalware
    totalMisconfigurations := s.totalMisconfigurations + r.totalMisconfigurations
    totalPackages := s.totalPackages + r.totalPackages
    totalRootkits := s.totalRootkits + r.totalRootkits
    totalSecrets := s.totalSecrets + r.totalSecrets
    totalVulnerabilities :=
      { totalCriticalVulnerabilities :=
          s.totalVulnerabilities.totalCriticalVulnerabilities
            + r.totalVulnerabilities.totalCriticalVulnerabilities
        totalHighVulnerabilities :=
          s.totalVulnerabilities.totalHighVulnerabilities
            + r.totalVulnerabilities.totalHighVulnerabilities
        totalLowVulnerabilities :=
          s.totalVulnerabilities.totalLowVulnerabilities
            + r.totalVulnerabilities.totalLowVulnerabilities
        totalMediumVulnerabilities :=
          s.totalVulnerabilities.totalMediumVulnerabilities
            + r.totalVulnerabilities.totalMediumVulnerabilities
        totalNegligibleVulnerabilities :=
          s.totalVulnerabilities.totalCriticalVulnerabilities
            + r.totalVulnerabilities.totalNegligibleVulnerabilities } }

/-- Embedding of `createScanWithUpdatedSummary` (part_000 lines 170-199): fetch the
scan and the completed target's result summary from the backend (both
fallible, modelled as `Option` inputs), then fold the result summary
into the scan summary.  Returns the scan to be PATCHed. -/
def createScanWithUpdatedSummary (getScan : Option Scan)
    (getScanResultSummary : Option ScanFindingsSummary) : Except String Scan :=
  match getScan with
  | none => .error "failed to get scan to update status"
  | some scan =>
    match getScanResultSummary with
    | none => .error "failed to get result summary to update status"
    | some scanResultSummary =>
      .ok { scan with summary := updatedSummary scan.summary scanResultSummary }

/-- A concrete stored scan summary used to exhibit the negligible
roll-up divergence: 5 critical vulnerabilities already tallied,
0 negligible, everything else 0. -/
def c1ScanSummary : ScanSummary :=
  { jobsCompleted := 0, jobsLeftToRun := 1
    totalExploits := 0, totalMalware := 0, totalMisconfigurations := 0
    totalPackages := 0, totalRootkits := 0, totalSecrets := 0
    totalVulnerabilities :=
      { totalCriticalVulnerabilities := 5
        totalHighVulnerabilities := 0
        totalMediumVulnerabilities := 0
        totalLowVulnerabilities := 0
        totalNegligibleVulnerabilities := 0 } }

/-- A completed target's result summary with 2 negligible
vulnerabilities and nothing else. -/
def c1ResultSummary : ScanFindingsSummary :=
  { totalExploits := 0, totalMalware := 0, totalMisconfigurations := 0
    totalPackages := 0, totalRootkits := 0, totalSecrets := 0
    totalVulnerabilities :=
      { totalCriticalVulnerabilities := 0
        totalHighVulnerabilities := 0
        totalMediumVulnerabilities := 0
        totalLowVulnerabilities := 0
        totalNegligibleVulnerabilities := 2 } }

/-- An arbitrary concrete scan wrapping `c1ScanSummary`. -/
def c1Scan : Scan :=
  { summary := c1ScanSummary, state := some .inProgress
    stateReason := none, stateMessage := none, endTime := none }

/-- The terminal-state computation of `jobBatchManagement` once
`numberOfCompletedJobs == len(targetIDToScanData)` (part_000 lines
115-148): set `EndTime` to now, then read the scan state; if it cannot
be read, FAILED with reason UNEXPECTED; if it is ABORTED, FAILED with
reason ABORTED; else if any job failed, FAILED with reason
ONE_OR_MORE_TARGETS_FAILED; else DONE with reason SUCCESS.  A Go `break`
in each branch leaves the `select`, so the PATCH that follows always
receives this record. -/
def finalizeScanOnCompletion (scan : Scan) (anyJobsFailed : Bool) (now : Nat) : Scan :=
  let scan := { scan with endTime := some now }
  match scan.state with
  | none =>
    { scan with state := some .failed
                stateMessage := some "Failed to retrieve scan state"
                stateReason := some .unexpected }
  | some scanState =>
    if scanState = .aborted then
      { scan with state := some .failed
                  stateMessage := some "User initiated"
                  stateReason := some .aborted }
    else if anyJobsFailed then
      { scan with state := some .failed
                  stateMessage := some "One or more ScanJobs failed"
                  stateReason := some .oneOrMoreTargetFailedToScan }
    else
      { scan with state := some .done
                  stateMessage := some "All scan jobs completed"
                  stateReason := some .success }

/-- Per-target general and family states
(`models.TargetScanStateState`). -/
inductive TargetScanStateState where
  | init
  | attached
  | inProgress
  | aborted
  | done
  | notScanned
deriving Repr, DecidableEq

/-- One sub-state of a target scan status (`models.TargetScanState`):
an optional error list and an optional state. -/
structure TargetScanState where
  errors : Option (List String)
  state : Option TargetScanStateState
deriving Repr, DecidableEq

/-- A target's scan status (`models.TargetScanStatus`): one sub-state
per analyzer family plus the general one; all pointer fields in Go. -/
structure TargetScanStatus where
  exploits : Option TargetScanState
  general : Option TargetScanState
  malware : Option TargetScanState
  misconfigurations : Option TargetScanState
  rootkits : Option TargetScanState
  sbom : Option TargetScanState
  secrets : Option TargetScanState
  vulnerabilities : Option TargetScanState
deriving Repr, DecidableEq

/-- The generated accessor `TargetScanStatus.GetGeneralState`: yields
the general state when both the `General` sub-state and its `State`
field are non-nil, and reports failure (`ok = false`, here `none`)
otherwise. -/
def getGeneralState (status : TargetScanStatus) : Option TargetScanStateState :=
  match status.general with
  | none => none
  | some g => g.state

/-- Embedding of `scanStatusHasErrors` (part_000 lines 321-327): true when the
general sub-state's error list is non-nil and non-empty.  Only the
general sub-state is consulted.  (In Go a nil `General` would panic
here; every caller has already observed a general state, which implies
`General` is non-nil.) -/
def scanStatusHasErrors (status : TargetScanStatus) : Bool :=
  match status.general with
  | none => false
  | some g =>
    match g.errors with
    | none => false
    | some es => decide (es.length > 0)

/-- The three mutable flags of a `scanData` entry that `waitForResult`
writes (under the scan-wide mutex). -/
structure ScanData where
  success : Bool
  completed : Bool
  timeout : Bool
deriving Repr, DecidableEq

/-- One wake-up of the `waitForResult` select loop: a polling tick
(carrying the backend's answer to `GetScanResultStatus`, `none` on
error), the expiry of the `JobResultTimeout` context, or the kill
signal. -/
inductive TickEvent where
  | tick (statusResult : Option TargetScanStatus)
  | ctxDone
  | killSignal
deriving Repr, DecidableEq

/-- Result of one iteration of the `waitForResult` loop: keep polling
with the (possibly unchanged) scan data, or return with the final scan
data. -/
inductive WaitStep where
  | cont (d : ScanData)
  | ret (d : ScanData)
deriving Repr, DecidableEq

/-- One iteration of the `waitForResult` select loop (part_000 lines
274-318).  On a tick whose status read errored, log and break out of
the select (keep polling, nothing mutated).  On a tick whose general
state cannot be determined, the Go switch matches no case (keep
polling).  States INIT/ATTACHED/INPROGRESS and ABORTED keep polling;
DONE/NOTSCANNED set `success = !scanStatusHasErrors`, `completed =
true` and return.  On context timeout set `success=false`,
`completed=true`, `timeout=true` and return.  On the kill signal return
without mutating. -/
def waitForResultStep (d : ScanData) (e : TickEvent) : WaitStep :=
  match e with
  | .tick none => .cont d
  | .tick (some scanResultStatus) =>
    match getGeneralState scanResultStatus with
    | none => .cont d
    | some state =>
      match state with
      | .init | .attached | .inProgress => .cont d
      | .aborted => .cont d
      | .done | .notScanned =>
        .ret { d with success := !scanStatusHasErrors scanResultStatus, completed := true }
  | .ctxDone => .ret { d with success := false, completed := true, timeout := true }
  | .killSignal => .ret d

/-- Embedding of `waitForResult` as a fold of `waitForResultStep` over the sequence
of wake-ups: returns the final scan data together with the event that
caused the return (`none` when the event list was exhausted while still
polling). -/
def waitForResultRun (d : ScanData) : List TickEvent → ScanData × Option TickEvent
  | [] => (d, none)
  | e :: es =>
    match waitForResultStep d e with
    | .cont d2 => waitForResultRun d2 es
    | .ret d2 => (d2, some e)

/-- The claim-side predicate of C2, following the spec's words: the
status has no errors on any sub-state (the general state and every
analyzer-family state). -/
def statusHasErrorsOnAnySubState (status : TargetScanStatus) : Bool :=
  [status.general, status.exploits, status.malware, status.misconfigurations,
   status.rootkits, status.sbom, status.secrets, status.vulnerabilities].any
    fun sub =>
      match sub with
      | none => false
      | some st =>
        match st.errors with
        | none => false
        | some es => decide (es.length > 0)

/-- A clean sub-state in a given state. -/
def cleanState (s : TargetScanStateState) : Option TargetScanState :=
  some { errors := none, state := some s }

/-- Counterexample status for C2: general state DONE with no errors,
but the SBOM family sub-state carries an error. -/
def c2Status : TargetScanStatus :=
  { exploits := cleanState .done
    general := cleanState .done
    malware := cleanState .done
    misconfigurations := cleanState .done
    rootkits := cleanState .done
    sbom := some { errors := some ["sbom analyzer failed"], state := some .done }
    secrets := cleanState .done
    vulnerabilities := cleanState .done }

/-- A cloud resource recorded on a Job, tagged by the Job field that
holds it. -/
inductive Resource where
  | instanceRes (id : String)
  | srcSnapshotRes (id : String)
  | dstSnapshotRes (id : String)
  | volumeRes (id : String)
deriving Repr, DecidableEq

/-- Embedding of `types.Job`: the resources provisioned for one target, used only for
cleanup.  All four fields are nilable interfaces in Go; each is modelled
by the optional identifier of the resource.  The Go field `Instance` is
called `inst` here because `instance` is reserved in Lean. -/
structure Job where
  inst : Option String
  srcSnapshot : Option String
  dstSnapshot : Option String
  volume : Option String
deriving Repr, DecidableEq

/-- One `if field != nil { if err := field.Delete(ctx); err != nil { log } }`
block of `deleteJob`: a nil field is skipped; otherwise the deletion is
attempted (recorded in the first list) and, when the provider call
fails, the failure is logged (recorded in the second list) and execution
continues. -/
def tryDelete (delete : Resource → Bool) (res : Option Resource)
    (acc : List Resource × List Resource) : List Resource × List Resource :=
  match res with
  | none => acc
  | some r => (acc.1 ++ [r], acc.2 ++ (if delete r then [] else [r]))

/-- Embedding of `deleteJob` (part_000 lines 655-676): best-effort deletion of the
Job's resources in the order instance, source snapshot, destination
snapshot, volume.  `delete` is the provider (true = the delete call
succeeded).  Returns (attempted deletions in order, logged failures). -/
def deleteJob (delete : Resource → Bool) (job : Job) : List Resource × List Resource :=
  tryDelete delete (job.volume.map .volumeRes)
    (tryDelete delete (job.dstSnapshot.map .dstSnapshotRes)
      (tryDelete delete (job.srcSnapshot.map .srcSnapshotRes)
        (tryDelete delete (job.inst.map .instanceRes) ([], []))))

/-- Embedding of `config.DeleteJobPolicy`. -/
inductive DeleteJobPolicy where
  | never
  | always
  | onSuccess
deriving Repr, DecidableEq

/-- Embedding of `deleteJobIfNeeded` (part_000 lines 632-653): a nil Job pointer is a
no-op; an uncompleted job is always reaped (orphan cleanup); a completed
job is reaped per policy: NEVER does nothing, ALWAYS deletes, ON_SUCCESS
deletes iff the job was successful. -/
def deleteJobIfNeeded (delete : Resource → Bool) (policy : DeleteJobPolicy)
    (job : Option Job) (isSuccessfulJob isCompletedJob : Bool) :
    List Resource × List Resource :=
  match job with
  | none => ([], [])
  | some j =>
    if !isCompletedJob then deleteJob delete j
    else
      match policy with
      | .never => ([], [])
      | .always => deleteJob delete j
      | .onSuccess => if isSuccessfulJob then deleteJob delete j else ([], [])

/-- The per-family scan config: only the nilable `Enabled` flag matters
to the orchestrator's state initialization.  Stands for each of
`models.{SBOM,Vulnerabilities,Secrets,Exploits,Malware,
Misconfigurations,Rootkits}Config`. -/
structure FamilyEnabledConfig where
  enabled : Option Bool
deriving Repr, DecidableEq

/-- Embedding of `models.ScanFamiliesConfig`: the per-family configs, each nilable. -/
structure ScanFamiliesConfig where
  exploits : Option FamilyEnabledConfig
  malware : Option FamilyEnabledConfig
  misconfigurations : Option FamilyEnabledConfig
  rootkits : Option FamilyEnabledConfig
  sbom : Option FamilyEnabledConfig
  secrets : Option FamilyEnabledConfig
  vulnerabilities : Option FamilyEnabledConfig
deriving Repr, DecidableEq

/-- Embedding of `stateToPointer` (part_000 lines 810-812). -/
def stateToPointer (state : TargetScanStateState) : Option TargetScanStateState :=
  some state

/-- Embedding of `getInitScanStatusExploitsStateFromEnabled` (part_000 lines 802-808):
NOTSCANNED when the config is nil, its `Enabled` is nil, or false;
INIT otherwise. -/
def getInitScanStatusExploitsStateFromEnabled (config : Option FamilyEnabledConfig) :
    Option TargetScanStateState :=
  match config with
  | none => stateToPointer .notScanned
  | some c =>
    match c.enabled with
    | none => stateToPointer .notScanned
    | some enabled => if !enabled then stateToPointer .notScanned else stateToPointer .init

/-- Embedding of `getInitScanStatusMalwareStateFromEnabled` (part_000 lines 794-800). -/
def getInitScanStatusMalwareStateFromEnabled (config : Option FamilyEnabledConfig) :
    Option TargetScanStateState :=
  match config with
  | none => stateToPointer .notScanned
  | some c =>
    match c.enabled with
    | none => stateToPointer .notScanned
    | some enabled => if !enabled then stateToPointer .notScanned else stateToPointer .init

/-- Embedding of `getInitScanStatusMisconfigurationsStateFromEnabled` (part_000 lines
786-792). -/
def getInitScanStatusMisconfigurationsStateFromEnabled (config : Option FamilyEnabledConfig) :
    Option TargetScanStateState :=
  match config with
  | none => stateToPointer .notScanned
  | some c =>
    match c.enabled with
    | none => stateToPointer .notScanned
    | some enabled => if !enabled then stateToPointer .notScanned else stateToPointer .init

/-- Embedding of `getInitScanStatusRootkitsStateFromEnabled` (part_000 lines 778-784). -/
def getInitScanStatusRootkitsStateFromEnabled (config : Option FamilyEnabledConfig) :
    Option TargetScanStateState :=
  match config with
  | none => stateToPointer .notScanned
  | some c =>
    match c.enabled with
    | none => stateToPointer .notScanned
    | some enabled => if !enabled then stateToPointer .notScanned else stateToPointer .init

/-- Embedding of `getInitScanStatusSbomStateFromEnabled` (part_000 lines 770-776). -/
def getInitScanStatusSbomStateFromEnabled (config : Option FamilyEnabledConfig) :
    Option TargetScanStateState :=
  match config with
  | none => stateToPointer .notScanned
  | some c =>
    match c.enabled with
    | none => stateToPointer .notScanned
    | some enabled => if !enabled then stateToPointer .notScanned else stateToPointer .init

/-- Embedding of `getInitScanStatusSecretsStateFromEnabled` (part_000 lines 762-768). -/
def getInitScanStatusSecretsStateFromEnabled (config : Option FamilyEnabledConfig) :
    Option TargetScanStateState :=
  match config with
  | none => stateToPointer .notScanned
  | some c =>
    match c.enabled with
    | none => stateToPointer .notScanned
    | some enabled => if !enabled then stateToPointer .notScanned else stateToPointer .init

/-- Embedding of `getInitScanStatusVulnerabilitiesStateFromEnabled` (part_000 lines
754-760). -/
def getInitScanStatusVulnerabilitiesStateFromEnabled (config : Option FamilyEnabledConfig) :
    Option TargetScanStateState :=
  match config with
  | none => stateToPointer .notScanned
  | some c =>
    match c.enabled with
    | none => stateToPointer .notScanned
    | some enabled => if !enabled then stateToPointer .notScanned else stateToPointer .init

/-- Embedding of `models.ScanRelationship`. -/
structure ScanRelationship where
  id : String
deriving Repr, DecidableEq

/-- Embedding of `models.TargetRelationship`. -/
structure TargetRelationship where
  id : String
deriving Repr, DecidableEq

/-- Embedding of `models.TargetScanResult`, restricted to the fields the
initialization sets. -/
structure TargetScanResult where
  summary : ScanFindingsSummary
  scan : ScanRelationship
  status : TargetScanStatus
  target : TargetRelationship
deriving Repr, DecidableEq

/-- Embedding of `createInitScanResultSummary` (part_000 lines 736-752): the all-zero
findings summary. -/
def createInitScanResultSummary : ScanFindingsSummary :=
  { totalExploits := 0, totalMalware := 0, totalMisconfigurations := 0
    totalPackages := 0, totalRootkits := 0, totalSecrets := 0
    totalVulnerabilities :=
      { totalCriticalVulnerabilities := 0
        totalHighVulnerabilities := 0
        totalMediumVulnerabilities := 0
        totalLowVulnerabilities := 0
        totalNegligibleVulnerabilities := 0 } }

/-- The `TargetScanResult` record built by `createInitTargetScanStatus`
(part_000 lines 679-723) before it is posted: zero summary, general
state INIT with nil errors, and each family state derived from its
enabled flag. -/
def mkInitScanResult (scanFamiliesConfig : ScanFamiliesConfig)
    (scanID targetID : String) : TargetScanResult :=
  { summary := createInitScanResultSummary
    scan := { id := scanID }
    status :=
      { exploits := some { errors := none,
                           state := getInitScanStatusExploitsStateFromEnabled scanFamiliesConfig.exploits }
        general := some { errors := none, state := stateToPointer .init }
        malware := some { errors := none,
                          state := getInitScanStatusMalwareStateFromEnabled scanFamiliesConfig.malware }
        misconfigurations := some { errors := none,
                                    state := getInitScanStatusMisconfigurationsStateFromEnabled scanFamiliesConfig.misconfigurations }
        rootkits := some { errors := none,
                           state := getInitScanStatusRootkitsStateFromEnabled scanFamiliesConfig.rootkits }
        sbom := some { errors := none,
                       state := getInitScanStatusSbomStateFromEnabled scanFamiliesConfig.sbom }
        secrets := some { errors := none,
                          state := getInitScanStatusSecretsStateFromEnabled scanFamiliesConfig.secrets }
        vulnerabilities := some { errors := none,
                                  state := getInitScanStatusVulnerabilitiesStateFromEnabled scanFamiliesConfig.vulnerabilities } }
    target := { id := targetID } }

/-- Outcome of `backendClient.PostScanResult`: a fresh id, a
`ScanResultConflictError` carrying the pre-existing result's id, or any
other error. -/
inductive PostScanResultOutcome where
  | ok (id : String)
  | conflict (existingId : String)
  | err (msg : String)
deriving Repr, DecidableEq

/-- Embedding of `createInitTargetScanStatus` (part_000 lines 679-734): build the
initial scan result and post it; on a conflict error adopt the
conflicting result's id with no error; on any other error fail. -/
def createInitTargetScanStatus (scanFamiliesConfig : ScanFamiliesConfig)
    (postScanResult : TargetScanResult → PostScanResultOutcome)
    (scanID targetID : String) : Except String String :=
  let scanResult := mkInitScanResult scanFamiliesConfig scanID targetID
  match postScanResult scanResult with
  | .ok createdId => .ok createdId
  | .conflict existingId => .ok existingId
  | .err msg => .error ("failed to post scan result: " ++ msg)

/-- The claim-side enabled test for a family config, following the
spec's words: enabled means the config is present and its `Enabled`
flag is present and true. -/
def familyEnabled (config : Option FamilyEnabledConfig) : Bool :=
  match config with
  | none => false
  | some c => c.enabled.getD false

/-- An all-nil families config, for witnesses. -/
def allNilFamiliesConfig : ScanFamiliesConfig :=
  { exploits := none, malware := none, misconfigurations := none
    rootkits := none, sbom := none, secrets := none, vulnerabilities := none }

/-- The outcome of every fallible step of the `runJob` pipeline
(part_000 lines 332-445), in source order: `none`/`false` means the
step fails, `some id` gives the identifier of the created resource. -/
structure PipelineOutcomes where
  getRootVolume : Option String
  takeSnapshot : Option String
  snapshotWaitReady : Bool
  copySnapshot : Option String
  copyWaitReady : Bool
  generateConfig : Bool
  runScanningJob : Option String
  createVolume : Option String
  instanceWaitReady : Bool
  volumeWaitReady : Bool
  attachVolume : Bool
  volumeWaitAttached : Bool
  patchStatus : Bool
deriving Repr, DecidableEq

/-- An error exit from `runJob`: the error result (Go returns
`types.Job{}`), the value of the local `job` variable at exit time, and
the deletion attempts made by the deferred cleanup hook
(part_000 lines 344-348), which runs `deleteJob` only when the
function-scope `err` variable is non-nil at exit. -/
def runJobExit (delete : Resource → Bool) (msg : String) (job : Job)
    (outerErrSet : Bool) : Except String Job × Job × List Resource :=
  (.error msg, job, if outerErrSet then (deleteJob delete job).1 else [])

/-- The all-nil Job, Go's `types.Job{}`. -/
def emptyJob : Job :=
  { inst := none, srcSnapshot := none, dstSnapshot := none, volume := none }

/-- The tail of `runJob` from config generation onwards (part_000 lines
387-444).  The three readiness waits at lines 414, 419 and 430 are
written `if err := ...; err != nil` in the source: the `:=` binds a
fresh `err` inside the `if`, shadowing the function-scope `err` that
the deferred cleanup reads, so on those three error paths the cleanup
sees a nil `err` and does not fire (`outerErrSet = false` below).
Lines 400, 407, 424 and 435 assign the function-scope `err`. -/
def runJobLaunch (delete : Resource → Bool) (o : PipelineOutcomes) (job : Job) :
    Except String Job × Job × List Resource :=
  if !o.generateConfig then
    runJobExit delete "failed to generate scanner configuration yaml" job true
  else
    match o.runScanningJob with
    | none => runJobExit delete "failed to launch a new instance" job true
    | some instanceId =>
      let job := { job with inst := some instanceId }
      match o.createVolume with
      | none => runJobExit delete "failed to create volume" job true
      | some volumeId =>
        let job := { job with volume := some volumeId }
        if !o.instanceWaitReady then
          runJobExit delete "failed to wait for instance ready" job false
        else if !o.volumeWaitReady then
          runJobExit delete "failed to wait for volume to be ready" job false
        else if !o.attachVolume then
          runJobExit delete "failed to attach volume" job true
        else if !o.volumeWaitAttached then
          runJobExit delete "failed to wait for volume attached" job false
        else if !o.patchStatus then
          runJobExit delete "failed to patch target scan status" job true
        else (.ok job, job, [])

/-- Embedding of `runJob` (part_000 lines 332-445): root volume, snapshot, readiness
wait, conditional cross-region copy (`regionMismatch` is
`s.config.Region != snapshot.GetRegion()`), then the launch tail.
Every created resource is recorded on `job` right after its creating
call returns. -/
def runJob (delete : Resource → Bool) (regionMismatch : Bool) (o : PipelineOutcomes) :
    Except String Job × Job × List Resource :=
  match o.getRootVolume with
  | none => runJobExit delete "failed to get root volume" emptyJob true
  | some _ =>
    match o.takeSnapshot with
    | none => runJobExit delete "failed to take snapshot" emptyJob true
    | some snapshotId =>
      let job : Job := { emptyJob with srcSnapshot := some snapshotId }
      if !o.snapshotWaitReady then
        runJobExit delete "failed to wait for snapshot to be ready" job true
      else if regionMismatch then
        match o.copySnapshot with
        | none => runJobExit delete "failed to copy snapshot" job true
        | some copyId =>
          let job := { job with dstSnapshot := some copyId }
          if !o.copyWaitReady then
            runJobExit delete "failed to wait for snapshot to be ready" job true
          else runJobLaunch delete o job
      else runJobLaunch delete o job

/-- Pipeline outcomes for the C5 failing input: every step succeeds
except the instance readiness wait (part_000 line 414). -/
def c5Outcomes : PipelineOutcomes :=
  { getRootVolume := some "vol-root", takeSnapshot := some "snap-1"
    snapshotWaitReady := true, copySnapshot := none, copyWaitReady := true
    generateConfig := true, runScanningJob := some "i-scan"
    createVolume := some "vol-new", instanceWaitReady := false
    volumeWaitReady := true, attachVolume := true
    volumeWaitAttached := true, patchStatus := true }

/-! ## Theorems -/

/-- C1: for a completed target, `createScanWithUpdatedSummary` is
claimed to add each vulnerability severity of the result summary into
the scan summary's count for the same severity.  The code violates this
for the negligible severity: with 5 stored critical, 0 stored negligible
and 2 negligible in the result, the returned negligible total is
5 + 2 = 7 instead of 0 + 2 = 2 (part_000 line 195 reads
`TotalCriticalVulnerabilities` of the scan summary).  All other
severities are added severity-wise at this input. -/
theorem createScanWithUpdatedSummary_negligible_bug :
    ∃ scan : Scan, createScanWithUpdatedSummary (some c1Scan) (some c1ResultSummary) = .ok scan
      ∧ scan.summary.totalVulnerabilities.totalNegligibleVulnerabilities = 7
      ∧ c1ScanSummary.totalVulnerabilities.totalNegligibleVulnerabilities
          + c1ResultSummary.totalVulnerabilities.totalNegligibleVulnerabilities = 2
      ∧ scan.summary.totalVulnerabilities.totalCriticalVulnerabilities = 5
      ∧ scan.summary.totalVulnerabilities.totalHighVulnerabilities = 0
      ∧ scan.summary.totalVulnerabilities.totalMediumVulnerabilities = 0
      ∧ scan.summary.totalVulnerabilities.totalLowVulnerabilities = 0 := by
  refine ⟨_, rfl, ?_, ?_, ?_, ?_, ?_, ?_⟩ <;> decide

/-- C6: every summary update of a job completion increments
`jobsCompleted` by exactly one and decrements `jobsLeftToRun` by exactly
one, so `jobsCompleted + jobsLeftToRun = totalTargets` is preserved. -/
theorem updatedSummary_jobs_invariant (s : ScanSummary) (r : ScanFindingsSummary)
    (totalTargets : Int) (h : s.jobsCompleted + s.jobsLeftToRun = totalTargets) :
    (updatedSummary s r).jobsCompleted = s.jobsCompleted + 1
      ∧ (updatedSummary s r).jobsLeftToRun = s.jobsLeftToRun - 1
      ∧ (updatedSummary s r).jobsCompleted + (updatedSummary s r).jobsLeftToRun
          = totalTargets := by
  refine ⟨rfl, rfl, ?_⟩
  simp only [updatedSummary]
  omega

/-- Witness for C6 at a concrete summary: 3 completed, 2 left, 5 targets. -/
theorem updatedSummary_jobs_invariant_witness :
    ({ c1ScanSummary with jobsCompleted := 3, jobsLeftToRun := 2 } : ScanSummary).jobsCompleted
        + ({ c1ScanSummary with jobsCompleted := 3, jobsLeftToRun := 2 } : ScanSummary).jobsLeftToRun = 5
      ∧ (updatedSummary { c1ScanSummary with jobsCompleted := 3, jobsLeftToRun := 2 } c1ResultSummary).jobsCompleted
          + (updatedSummary { c1ScanSummary with jobsCompleted := 3, jobsLeftToRun := 2 } c1ResultSummary).jobsLeftToRun = 5 :=
  ⟨by decide,
   (updatedSummary_jobs_invariant { c1ScanSummary with jobsCompleted := 3, jobsLeftToRun := 2 }
     c1ResultSummary 5 (by decide)).2.2⟩

/-- C3: when the completed-job count reaches the target count, the
terminal scan has its end time set before the final PATCH, and its
state and reason are: FAILED/UNEXPECTED when the state cannot be read,
else FAILED/ABORTED when the current state is ABORTED, else
FAILED/ONE_OR_MORE_TARGETS_FAILED when any job failed, else
DONE/SUCCESS. -/
theorem finalizeScanOnCompletion_terminal (scan : Scan) (anyJobsFailed : Bool) (now : Nat) :
    (finalizeScanOnCompletion scan anyJobsFailed now).endTime = some now
      ∧ ((finalizeScanOnCompletion scan anyJobsFailed now).state,
         (finalizeScanOnCompletion scan anyJobsFailed now).stateReason)
          = match scan.state with
            | none => (some ScanState.failed, some ScanStateReason.unexpected)
            | some st =>
              if st = ScanState.aborted then
                (some ScanState.failed, some ScanStateReason.aborted)
              else if anyJobsFailed then
                (some ScanState.failed, some ScanStateReason.oneOrMoreTargetFailedToScan)
              else
                (some ScanState.done, some ScanStateReason.success) := by
  rcases scan with ⟨sum, st, sr, sm, et⟩
  rcases st with _ | st
  · exact ⟨rfl, rfl⟩
  · rcases st <;> rcases anyJobsFailed <;> exact ⟨rfl, rfl⟩

/-- Counterexample for C2 as stated: at `c2Status` the general state is
DONE with no errors but the SBOM family sub-state has an error.  The
waiter returns with `success = true` even though the status has errors
on a sub-state, so `success` is not `(status has no errors on any
sub-state)`. -/
theorem waitForResultStep_ignores_family_errors :
    waitForResultStep ⟨false, false, false⟩ (.tick (some c2Status))
        = .ret ⟨true, true, false⟩
      ∧ statusHasErrorsOnAnySubState c2Status = true := by
  exact ⟨rfl, rfl⟩

/-- C2 (amended): whenever the waiter observes general state DONE or
NOTSCANNED, it sets `completed = true`, sets `success` to true if and
only if the *general* sub-state's error list is nil or empty (the
per-family states are not consulted), and returns. -/
theorem waitForResultStep_done_flags (d : ScanData) (status : TargetScanStatus)
    (st : TargetScanStateState) (g : TargetScanState)
    (hg : status.general = some g) (hst : g.state = some st)
    (hterm : st = .done ∨ st = .notScanned) :
    waitForResultStep d (.tick (some status))
      = .ret { d with completed := true, success := (g.errors.getD []).isEmpty } := by
  have hgen : getGeneralState status = some st := by
    simp [getGeneralState, hg, hst]
  have hErr : (!scanStatusHasErrors status) = (g.errors.getD []).isEmpty := by
    simp only [scanStatusHasErrors, hg]
    cases g.errors with
    | none => rfl
    | some es => cases es <;> simp
  rcases hterm with rfl | rfl <;>
    simp [waitForResultStep, hgen, hErr]

/-- Witness for C2 (amended) at `c2Status`, whose general sub-state is
DONE with a nil error list. -/
theorem waitForResultStep_done_flags_witness :
    waitForResultStep ⟨false, false, false⟩ (.tick (some c2Status))
      = .ret ⟨true, true, false⟩ := by
  have h := waitForResultStep_done_flags ⟨false, false, false⟩ c2Status .done
    { errors := none, state := some .done } rfl rfl (Or.inl rfl)
  simpa using h

/-- If one iteration of the waiter loop returns, the wake-up event was
the context timeout, the kill signal, or a successfully read status
whose general state is DONE or NOTSCANNED. -/
theorem waitForResultStep_ret_cause (d d2 : ScanData) (e : TickEvent)
    (h : waitForResultStep d e = .ret d2) :
    e = .ctxDone ∨ e = .killSignal
      ∨ ∃ status, e = .tick (some status)
          ∧ (getGeneralState status = some .done
             ∨ getGeneralState status = some .notScanned) := by
  cases e with
  | tick statusResult =>
    cases statusResult with
    | none => simp [waitForResultStep] at h
    | some status =>
      right; right
      refine ⟨status, rfl, ?_⟩
      cases hg : getGeneralState status with
      | none => simp [waitForResultStep, hg] at h
      | some st =>
        cases st <;> simp [waitForResultStep, hg] at h ⊢
  | ctxDone => exact Or.inl rfl
  | killSignal => exact Or.inr (Or.inl rfl)

/-- C10: a tick whose status read (`GetScanResultStatus`) errors neither
returns nor mutates the scan data (the waiter keeps polling), and
whenever a run of the waiter returns, the event that caused the return
was the overall job-result timeout, the kill signal, or an observed
DONE/NOTSCANNED general state. -/
theorem waitForResult_error_tick_keeps_polling (d : ScanData)
    (events : List TickEvent) (e : TickEvent)
    (h : (waitForResultRun d events).2 = some e) :
    waitForResultStep d (.tick none) = .cont d
      ∧ (e = .ctxDone ∨ e = .killSignal
          ∨ ∃ status, e = .tick (some status)
              ∧ (getGeneralState status = some .done
                 ∨ getGeneralState status = some .notScanned)) := by
  refine ⟨rfl, ?_⟩
  induction events generalizing d with
  | nil => simp [waitForResultRun] at h
  | cons eHead es ih =>
    rw [waitForResultRun] at h
    cases hs : waitForResultStep d eHead with
    | cont d2 =>
      rw [hs] at h
      exact ih d2 h
    | ret d2 =>
      rw [hs] at h
      simp only [Option.some.injEq] at h
      subst h
      exact waitForResultStep_ret_cause d d2 eHead hs

/-- Witness for C10: an errored tick followed by the context timeout;
the run returns on the timeout event. -/
theorem waitForResult_error_tick_keeps_polling_witness :
    waitForResultStep ⟨false, false, false⟩ (.tick none) = .cont ⟨false, false, false⟩
      ∧ (TickEvent.ctxDone = .ctxDone ∨ TickEvent.ctxDone = .killSignal
          ∨ ∃ status, TickEvent.ctxDone = .tick (some status)
              ∧ (getGeneralState status = some .done
                 ∨ getGeneralState status = some .notScanned)) :=
  waitForResult_error_tick_keeps_polling ⟨false, false, false⟩
    [.tick none, .ctxDone] .ctxDone rfl

/-- C4: `deleteJobIfNeeded` on an actual Job deletes whenever the job is
not completed, regardless of policy; on a completed job it deletes under
ALWAYS, does nothing under NEVER, and deletes iff successful under
ON_SUCCESS. -/
theorem deleteJobIfNeeded_policy (delete : Resource → Bool)
    (policy : DeleteJobPolicy) (job : Job) (isSuccessfulJob : Bool) :
    deleteJobIfNeeded delete policy (some job) isSuccessfulJob false = deleteJob delete job
      ∧ deleteJobIfNeeded delete .always (some job) isSuccessfulJob true = deleteJob delete job
      ∧ deleteJobIfNeeded delete .never (some job) isSuccessfulJob true = ([], [])
      ∧ deleteJobIfNeeded delete .onSuccess (some job) isSuccessfulJob true
          = (if isSuccessfulJob then deleteJob delete job else ([], [])) :=
  ⟨rfl, rfl, rfl, rfl⟩

/-- C9: `deleteJob` attempts deletions in the order instance, source
snapshot, destination snapshot, volume, skipping nil fields; the attempt
list does not depend on whether individual deletes fail (a failure is
logged and the remaining deletes are still attempted), and reaping an
all-nil Job attempts nothing. -/
theorem deleteJob_order (delete : Resource → Bool) (job : Job) :
    (deleteJob delete job).1
        = (job.inst.map Resource.instanceRes).toList
          ++ (job.srcSnapshot.map Resource.srcSnapshotRes).toList
          ++ (job.dstSnapshot.map Resource.dstSnapshotRes).toList
          ++ (job.volume.map Resource.volumeRes).toList
      ∧ deleteJob delete { inst := none, srcSnapshot := none, dstSnapshot := none, volume := none }
          = ([], []) := by
  refine ⟨?_, rfl⟩
  rcases job with ⟨i, s, d, v⟩
  rcases i with _ | i <;> rcases s with _ | s <;> rcases d with _ | d <;> rcases v with _ | v <;>
    simp [deleteJob, tryDelete]

/-- The body shared by the seven `getInitScanStatus...StateFromEnabled`
functions equals the claim-side enabled test. -/
theorem getInitScanStatusExploitsStateFromEnabled_eq (c : Option FamilyEnabledConfig) :
    getInitScanStatusExploitsStateFromEnabled c
      = some (if familyEnabled c then TargetScanStateState.init else .notScanned) := by
  rcases c with _ | ⟨_ | b⟩
  · rfl
  · rfl
  · cases b <;> rfl

/-- Same statement for the malware family. -/
theorem getInitScanStatusMalwareStateFromEnabled_eq (c : Option FamilyEnabledConfig) :
    getInitScanStatusMalwareStateFromEnabled c
      = some (if familyEnabled c then TargetScanStateState.init else .notScanned) := by
  rcases c with _ | ⟨_ | b⟩
  · rfl
  · rfl
  · cases b <;> rfl

/-- Same statement for the misconfigurations family. -/
theorem getInitScanStatusMisconfigurationsStateFromEnabled_eq (c : Option FamilyEnabledConfig) :
    getInitScanStatusMisconfigurationsStateFromEnabled c
      = some (if familyEnabled c then TargetScanStateState.init else .notScanned) := by
  rcases c with _ | ⟨_ | b⟩
  · rfl
  · rfl
  · cases b <;> rfl

/-- Same statement for the rootkits family. -/
theorem getInitScanStatusRootkitsStateFromEnabled_eq (c : Option FamilyEnabledConfig) :
    getInitScanStatusRootkitsStateFromEnabled c
      = some (if familyEnabled c then TargetScanStateState.init else .notScanned) := by
  rcases c with _ | ⟨_ | b⟩
  · rfl
  · rfl
  · cases b <;> rfl

/-- Same statement for the SBOM family. -/
theorem getInitScanStatusSbomStateFromEnabled_eq (c : Option FamilyEnabledConfig) :
    getInitScanStatusSbomStateFromEnabled c
      = some (if familyEnabled c then TargetScanStateState.init else .notScanned) := by
  rcases c with _ | ⟨_ | b⟩
  · rfl
  · rfl
  · cases b <;> rfl

/-- Same statement for the secrets family. -/
theorem getInitScanStatusSecretsStateFromEnabled_eq (c : Option FamilyEnabledConfig) :
    getInitScanStatusSecretsStateFromEnabled c
      = some (if familyEnabled c then TargetScanStateState.init else .notScanned) := by
  rcases c with _ | ⟨_ | b⟩
  · rfl
  · rfl
  · cases b <;> rfl

/-- Same statement for the vulnerabilities family. -/
theorem getInitScanStatusVulnerabilitiesStateFromEnabled_eq (c : Option FamilyEnabledConfig) :
    getInitScanStatusVulnerabilitiesStateFromEnabled c
      = some (if familyEnabled c then TargetScanStateState.init else .notScanned) := by
  rcases c with _ | ⟨_ | b⟩
  · rfl
  · rfl
  · cases b <;> rfl

/-- C7: the initial TargetScanResult built by
`createInitTargetScanStatus` has general state INIT with nil errors, an
all-zero findings summary, and each family state INIT when that family
is enabled in the scan config and NOTSCANNED when its config is nil or
its `Enabled` flag is nil or false. -/
theorem mkInitScanResult_states (cfg : ScanFamiliesConfig) (scanID targetID : String) :
    (mkInitScanResult cfg scanID targetID).status.general
        = some { errors := none, state := some .init }
      ∧ (mkInitScanResult cfg scanID targetID).summary
          = { totalExploits := 0, totalMalware := 0, totalMisconfigurations := 0
              totalPackages := 0, totalRootkits := 0, totalSecrets := 0
              totalVulnerabilities :=
                { totalCriticalVulnerabilities := 0, totalHighVulnerabilities := 0
                  totalMediumVulnerabilities := 0, totalLowVulnerabilities := 0
                  totalNegligibleVulnerabilities := 0 } }
      ∧ (mkInitScanResult cfg scanID targetID).status.exploits
          = some { errors := none,
                   state := some (if familyEnabled cfg.exploits then .init else .notScanned) }
      ∧ (mkInitScanResult cfg scanID targetID).status.malware
          = some { errors := none,
                   state := some (if familyEnabled cfg.malware then .init else .notScanned) }
      ∧ (mkInitScanResult cfg scanID targetID).status.misconfigurations
          = some { errors := none,
                   state := some (if familyEnabled cfg.misconfigurations then .init else .notScanned) }
      ∧ (mkInitScanResult cfg scanID targetID).status.rootkits
          = some { errors := none,
                   state := some (if familyEnabled cfg.rootkits then .init else .notScanned) }
      ∧ (mkInitScanResult cfg scanID targetID).status.sbom
          = some { errors := none,
                   state := some (if familyEnabled cfg.sbom then .init else .notScanned) }
      ∧ (mkInitScanResult cfg scanID targetID).status.secrets
          = some { errors := none,
                   state := some (if familyEnabled cfg.secrets then .init else .notScanned) }
      ∧ (mkInitScanResult cfg scanID targetID).status.vulnerabilities
          = some { errors := none,
                   state := some (if familyEnabled cfg.vulnerabilities then .init else .notScanned) } := by
  refine ⟨rfl, rfl, ?_, ?_, ?_, ?_, ?_, ?_, ?_⟩ <;>
    simp [mkInitScanResult,
      getInitScanStatusExploitsStateFromEnabled_eq,
      getInitScanStatusMalwareStateFromEnabled_eq,
      getInitScanStatusMisconfigurationsStateFromEnabled_eq,
      getInitScanStatusRootkitsStateFromEnabled_eq,
      getInitScanStatusSbomStateFromEnabled_eq,
      getInitScanStatusSecretsStateFromEnabled_eq,
      getInitScanStatusVulnerabilitiesStateFromEnabled_eq]

/-- C8: when `PostScanResult` reports a conflict carrying the
pre-existing scan result's id, `createInitTargetScanStatus` returns
that id with no error, so a repeated result-create for the same
(scan, target) adopts the existing id instead of creating a
duplicate. -/
theorem createInitTargetScanStatus_conflict_idempotent (cfg : ScanFamiliesConfig)
    (postScanResult : TargetScanResult → PostScanResultOutcome)
    (scanID targetID existingId : String)
    (h : postScanResult (mkInitScanResult cfg scanID targetID) = .conflict existingId) :
    createInitTargetScanStatus cfg postScanResult scanID targetID = .ok existingId := by
  simp [createInitTargetScanStatus, h]

/-- Witness for C8: a store whose post always reports a conflict with
id `sr-1`. -/
theorem createInitTargetScanStatus_conflict_idempotent_witness :
    createInitTargetScanStatus allNilFamiliesConfig
      (fun _ => .conflict "sr-1") "scan-1" "target-1" = .ok "sr-1" :=
  createInitTargetScanStatus_conflict_idempotent allNilFamiliesConfig
    (fun _ => .conflict "sr-1") "scan-1" "target-1" "sr-1" rfl

/-- C5: on the error path where the instance readiness wait fails
(part_000 line 414), the Job has the source snapshot, the launched
instance and the created volume recorded on it, yet the deferred
cleanup attempts no deletion at all: line 414 binds a fresh `err`
inside the `if`, shadowing the function-scope `err` consulted by the
deferred hook, which therefore sees nil.  The worker's subsequent
`deleteJobIfNeeded` receives the nil Job pointer that `handleScanData`
returns on a pipeline error and also deletes nothing, so the recorded
resources are attempted zero times, not exactly once.  By contrast, on
the attach-volume error path (line 424 assigns the function-scope
`err`) every recorded resource is attempted exactly once. -/
theorem runJob_shadowed_err_skips_cleanup :
    runJob (fun _ => true) false c5Outcomes
        = (.error "failed to wait for instance ready",
           { inst := some "i-scan", srcSnapshot := some "snap-1"
             dstSnapshot := none, volume := some "vol-new" },
           [])
      ∧ deleteJobIfNeeded (fun _ => true) .always none false false = ([], [])
      ∧ (runJob (fun _ => true) false
          { c5Outcomes with instanceWaitReady := true, attachVolume := false }).2.2
          = [.instanceRes "i-scan", .srcSnapshotRes "snap-1", .volumeRes "vol-new"] :=
  ⟨rfl, rfl, rfl⟩
